import Mathlib

/-!
A verification development for the bench_checklist repository: a shallow
embedding of its configuration model (src/config.rs), check dispatcher and
status aggregation (src/checkers/), drift detection and scenario switching
(src/app.rs), and fix classification/remediation (src/fixer.rs), with
theorems settling the specification's claims.

Windows API interactions (registry, power, process and display probes) are
abstracted as an explicit environment record `Env`: each field holds the
outcome the corresponding `unsafe` OS interaction of the source would
produce, so every checker and fixer is a pure function of its configuration
and that environment.  `u32`/`u64`/`u128` quantities (registry DWORDs,
refresh rates, poll intervals, GUIDs) are modelled as `Nat`; no arithmetic
in the modelled code can overflow or wrap.  Rust `HashMap`s that are
iterated or cleared (`scenarios`) are modelled as association lists with
first-match lookup; the drift baseline `HashMap<String, bool>` is modelled
extensionally as `String → Option Bool`.
-/

namespace BenchChecklist

/-- Check kinds (`CheckType`).  The enum declared in src/config.rs lines
75-82 lists only the first six constructors; the dispatcher (`run_check`,
src/checkers/mod.rs lines 70-82) and the fixer (src/fixer.rs) additionally
match on the three display kinds, which the crate's display checker module
implements.  The embedding uses the nine-kind type those consumers
require; `configCheckTypeVariants` below records exactly the variants the
enum in config.rs declares. -/
inductive CheckType where
  | PowerScheme
  | PowerMode
  | RegistryDword
  | RegistryString
  | ProcessAbsent
  | ProcessPresent
  | DisplayResolution
  | DisplayRefreshRate
  | HdrEnabled
deriving DecidableEq, Repr

/-- The variants the `CheckType` enum in src/config.rs (lines 75-82)
actually declares, in declaration order. -/
def configCheckTypeVariants : List CheckType :=
  [.PowerScheme, .PowerMode, .RegistryDword, .RegistryString,
   .ProcessAbsent, .ProcessPresent]

/-- The kinds the `match` in `run_check` (src/checkers/mod.rs lines 70-82)
has an arm for, in arm order. -/
def runCheckMatchedKinds : List CheckType :=
  [.PowerScheme, .PowerMode, .RegistryDword, .RegistryString,
   .ProcessAbsent, .ProcessPresent,
   .DisplayResolution, .DisplayRefreshRate, .HdrEnabled]

/-- `CheckConfig` from src/config.rs: one declarative check. -/
structure CheckConfig where
  id : String
  name : String
  check_type : CheckType
  enabled : Bool
  registry_path : Option String
  registry_key : Option String
  process_name : Option String
  expected_value : Option String
deriving DecidableEq, Repr

/-- `Scenario` from src/config.rs. -/
structure Scenario where
  name : String
  description : String
  poll_interval_seconds : Nat
  notify_on_drift : Bool
  checks : List CheckConfig
deriving DecidableEq, Repr

/-- Legacy flat configuration (`ConfigV1`, src/config.rs). -/
structure ConfigV1 where
  poll_interval_seconds : Nat
  notify_on_drift : Bool
  checks : List CheckConfig
deriving DecidableEq, Repr

/-- Scenario-based configuration (`ConfigV2`, src/config.rs); the
`HashMap<String, Scenario>` is modelled as an association list. -/
structure ConfigV2 where
  version : Nat
  default_scenario : String
  scenarios : List (String × Scenario)
deriving DecidableEq, Repr

/-- `ConfigRoot` from src/config.rs: the untagged union the config file
parses into. -/
inductive ConfigRoot where
  | V2 (c : ConfigV2)
  | V1 (c : ConfigV1)
deriving DecidableEq, Repr

/-- Working configuration (`Config`, src/config.rs). -/
structure Config where
  root : ConfigV2
  active_scenario : String
deriving DecidableEq, Repr

/-- `HashMap::get` on the association-list model (first match). -/
def assocGet (l : List (String × α)) (k : String) : Option α :=
  (l.find? (fun p => p.1 == k)).map Prod.snd

/-- `HashMap::contains_key` on the association-list model. -/
def assocContains (l : List (String × α)) (k : String) : Bool :=
  (assocGet l k).isSome

/-- `CheckResult` from src/checkers/mod.rs. -/
structure CheckResult where
  id : String
  name : String
  passed : Bool
  current_value : String
  expected_value : String
  message : String
deriving DecidableEq, Repr

/-- `CheckResult::pass` (src/checkers/mod.rs lines 22-31). -/
def CheckResult.pass (id name current expected : String) : CheckResult :=
  { id := id, name := name, passed := true, current_value := current,
    expected_value := expected, message := name ++ " is correctly set" }

/-- `CheckResult::fail` (src/checkers/mod.rs lines 33-42). -/
def CheckResult.fail (id name current expected : String) : CheckResult :=
  { id := id, name := name, passed := false, current_value := current,
    expected_value := expected,
    message := name ++ ": expected '" ++ expected ++ "', got '" ++ current ++ "'" }

/-- `CheckResult::error` (src/checkers/mod.rs lines 44-53): the result used
when a probe call itself cannot be completed. -/
def CheckResult.mkError (id name errMsg : String) : CheckResult :=
  { id := id, name := name, passed := false, current_value := "ERROR",
    expected_value := "", message := name ++ ": " ++ errMsg }

/-- `OverallStatus` from src/checkers/mod.rs. -/
inductive OverallStatus where
  | AllPassed
  | SomeFailed
  | AllFailed
deriving DecidableEq, Repr

/-- `OverallStatus::from_results` (src/checkers/mod.rs lines 102-117). -/
def OverallStatus.from_results (results : List CheckResult) : OverallStatus :=
  if results.isEmpty then .AllPassed
  else
    let passed := (results.filter (fun r => r.passed)).length
    let total := results.length
    if passed = total then .AllPassed
    else if passed = 0 then .AllFailed
    else .SomeFailed

/-- A filter keeps the whole list exactly when every element satisfies the
predicate. -/
theorem filter_length_eq_length_iff {α : Type} (p : α → Bool) (l : List α) :
    (l.filter p).length = l.length ↔ ∀ a ∈ l, p a = true := by
  constructor
  · intro h a ha
    have hfil : l.filter p = l := (List.filter_sublist l).eq_of_length h
    have : a ∈ l.filter p := by rw [hfil]; exact ha
    exact (List.mem_filter.mp this).2
  · intro h
    rw [List.filter_eq_self.mpr h]

/-- C5: the overall status derived from a result list is all-passed when the
list is empty or every element passed, all-failed when the list is non-empty
and no element passed, and some-failed in every other case. -/
theorem overall_status_spec (R : List CheckResult) :
    (OverallStatus.from_results R = .AllPassed ↔ (R = [] ∨ ∀ r ∈ R, r.passed = true))
  ∧ (OverallStatus.from_results R = .AllFailed ↔ (R ≠ [] ∧ ∀ r ∈ R, r.passed = false))
  ∧ (OverallStatus.from_results R = .SomeFailed ↔
      (¬(R = [] ∨ ∀ r ∈ R, r.passed = true) ∧ ¬(R ≠ [] ∧ ∀ r ∈ R, r.passed = false))) := by
  rcases hR : R with _ | ⟨r0, rest⟩
  · simp [OverallStatus.from_results]
  · rw [← hR]
    have hne : R ≠ [] := by simp [hR]
    have hisEmpty : R.isEmpty = false := by simp [hR]
    have hall : ((R.filter (fun r => r.passed)).length = R.length) ↔ ∀ r ∈ R, r.passed = true :=
      filter_length_eq_length_iff _ R
    have hnone : ((R.filter (fun r => r.passed)).length = 0) ↔ ∀ r ∈ R, r.passed = false := by
      rw [List.length_eq_zero, List.filter_eq_nil_iff]
      constructor
      · intro h r hr
        have := h r hr
        simpa using this
      · intro h r hr
        simp [h r hr]
    by_cases h1 : (R.filter (fun r => r.passed)).length = R.length
    · have hpos : ∀ r ∈ R, r.passed = true := hall.mp h1
      have hstat : OverallStatus.from_results R = .AllPassed := by
        unfold OverallStatus.from_results
        rw [hisEmpty]
        simp only [Bool.false_eq_true, if_false]
        rw [if_pos h1]
      rw [hstat]
      refine ⟨⟨fun _ => Or.inr hpos, fun _ => rfl⟩, ⟨(fun h => nomatch h), ?_⟩,
        ⟨(fun h => nomatch h), ?_⟩⟩
      · rintro ⟨-, hf⟩
        have ht := hpos r0 (by simp [hR])
        have := hf r0 (by simp [hR])
        simp_all
      · rintro ⟨habs, -⟩
        exact absurd (Or.inr hpos) habs
    · have hstep : OverallStatus.from_results R =
          if (R.filter (fun r => r.passed)).length = 0 then .AllFailed else .SomeFailed := by
        unfold OverallStatus.from_results
        rw [hisEmpty]
        simp only [Bool.false_eq_true, if_false]
        rw [if_neg h1]
      by_cases h0 : (R.filter (fun r => r.passed)).length = 0
      · have hneg : ∀ r ∈ R, r.passed = false := hnone.mp h0
        have hstat : OverallStatus.from_results R = .AllFailed := by rw [hstep, if_pos h0]
        rw [hstat]
        refine ⟨⟨(fun h => nomatch h), ?_⟩, ⟨fun _ => ⟨hne, hneg⟩, fun _ => rfl⟩,
          ⟨(fun h => nomatch h), ?_⟩⟩
        · rintro (h | h)
          · exact absurd h hne
          · exact absurd (hall.mpr h) h1
        · rintro ⟨-, habs⟩
          exact absurd ⟨hne, hneg⟩ habs
      · have hstat : OverallStatus.from_results R = .SomeFailed := by rw [hstep, if_neg h0]
        rw [hstat]
        refine ⟨⟨(fun h => nomatch h), ?_⟩, ⟨(fun h => nomatch h), ?_⟩,
          ⟨fun _ => ⟨?_, ?_⟩, fun _ => rfl⟩⟩
        · rintro (h | h)
          · exact absurd h hne
          · exact absurd (hall.mpr h) h1
        · rintro ⟨-, hf⟩
          exact absurd (hnone.mpr hf) h0
        · rintro (h | h)
          · exact absurd h hne
          · exact absurd (hall.mpr h) h1
        · rintro ⟨-, hf⟩
          exact absurd (hnone.mpr hf) h0

/-- C2: the `CheckType` enum declared in src/config.rs has six variants and
is missing the three display kinds, while the dispatcher `run_check` in
src/checkers/mod.rs matches on all nine kinds (including the display ones);
the crate therefore cannot compile as written, and the nine-kind model the
dispatcher, fixer and display checker module agree on is the intent. -/
theorem checktype_enum_dispatch_gap :
    configCheckTypeVariants.length = 6
  ∧ runCheckMatchedKinds.length = 9
  ∧ CheckType.DisplayResolution ∈ runCheckMatchedKinds
  ∧ CheckType.DisplayRefreshRate ∈ runCheckMatchedKinds
  ∧ CheckType.HdrEnabled ∈ runCheckMatchedKinds
  ∧ CheckType.DisplayResolution ∉ configCheckTypeVariants
  ∧ CheckType.DisplayRefreshRate ∉ configCheckTypeVariants
  ∧ CheckType.HdrEnabled ∉ configCheckTypeVariants := by
  refine ⟨rfl, rfl, ?_, ?_, ?_, ?_, ?_, ?_⟩ <;> decide

/-- Rust `str::starts_with` at the character level: the first list is a
prefix of the second. -/
def leadsWith : List Char → List Char → Bool
  | [], _ => true
  | _ :: _, [] => false
  | a :: as, b :: bs => a = b && leadsWith as bs

/-- Rust `str::strip_prefix` at the character level. -/
def stripLead (pre s : List Char) : Option (List Char) :=
  if leadsWith pre s then some (s.drop pre.length) else none

/-- The registry root keys the source handles (`HKEY_CURRENT_USER` /
`HKEY_LOCAL_MACHINE`). -/
inductive RootKey where
  | HKCU
  | HKLM
deriving DecidableEq, Repr

/-- `parse_root_key` (src/checkers/registry.rs lines 12-24). -/
def parse_root_key (path : String) : Option (RootKey × String) :=
  match stripLead ("HKCU\\".toList) path.toList with
  | some rest => some (.HKCU, String.mk rest)
  | none =>
    match stripLead ("HKEY_CURRENT_USER\\".toList) path.toList with
    | some rest => some (.HKCU, String.mk rest)
    | none =>
      match stripLead ("HKLM\\".toList) path.toList with
      | some rest => some (.HKLM, String.mk rest)
      | none =>
        match stripLead ("HKEY_LOCAL_MACHINE\\".toList) path.toList with
        | some rest => some (.HKLM, String.mk rest)
        | none => none

/-- `requires_admin` (src/checkers/registry.rs lines 32-34). -/
def requires_admin (path : String) : Bool :=
  leadsWith ("HKLM\\".toList) path.toList
    || leadsWith ("HKEY_LOCAL_MACHINE\\".toList) path.toList

/-- Rust `u32::from_str` on the strings the source feeds it (digits only;
the optional leading `+` sign is not modelled, no caller passes one). -/
def parseU32 (s : String) : Option Nat :=
  match s.toNat? with
  | some n => if n < 2 ^ 32 then some n else none
  | none => none

/-- Outcomes of the Windows API interactions: each field is the result the
corresponding `unsafe` OS call block of the source produces on this run.
GUIDs are their `u128` values as `Nat`; a `Nat` return models a `u32`
status code (0 = `ERROR_SUCCESS`). -/
structure Env where
  /-- `PowerGetActiveScheme` incl. the null-pointer check (power_plan.rs
  `check`): the active scheme GUID, or the error message the block makes. -/
  powerGetActiveScheme : Except String Nat
  /-- whether `get_overlay_funcs()` found the overlay API (power_plan.rs). -/
  overlayFuncsAvailable : Bool
  /-- `PowerGetActualOverlayScheme`: nonzero status code, or the GUID. -/
  powerGetOverlayScheme : Except Nat Nat
  /-- `read_dword` (registry.rs): value of `(root, subkey, value_name)`. -/
  regReadDword : RootKey → String → String → Except String Nat
  /-- `read_string` (registry.rs). -/
  regReadString : RootKey → String → String → Except String String
  /-- `get_running_processes` (processes.rs): the enumerated image names. -/
  runningProcesses : Except String (List String)
  /-- `get_current_display` (display.rs): (width, height, refresh Hz). -/
  displaySettings : Except String (Nat × Nat × Nat)
  /-- `PowerSetActiveScheme` status for a GUID (0 = success). -/
  powerSetActiveScheme : Nat → Nat
  /-- `PowerSetActiveOverlayScheme` status for a GUID (0 = success). -/
  powerSetOverlayScheme : Nat → Nat
  /-- `write_dword`'s registry interaction (registry.rs). -/
  regWriteDword : RootKey → String → String → Nat → Except String Unit
  /-- `write_string`'s registry interaction (registry.rs). -/
  regWriteString : RootKey → String → String → String → Except String Unit
  /-- `terminate_process`'s enumeration/termination loop (processes.rs),
  applied to the lowercased target name: instances terminated. -/
  terminateMatching : String → Except String Nat

namespace power_plan

/-- Well-known power scheme GUIDs (src/checkers/power_plan.rs lines 44-48). -/
def GUID_HIGH_PERFORMANCE : Nat := 0x8c5e7fdae8bf4a969a85a6e23a8c635c

def GUID_BALANCED : Nat := 0x381b4222f69441f09685ff5bb260df2e

def GUID_POWER_SAVER : Nat := 0xa184130835414fabbc81f71556f20b4a

def GUID_ULTIMATE_PERFORMANCE : Nat := 0xe9a42b02d5df448daa0003f14749eb61

/-- `scheme_name` (power_plan.rs lines 51-63). -/
def scheme_name (guid : Nat) : String :=
  if guid = GUID_HIGH_PERFORMANCE then "High Performance"
  else if guid = GUID_BALANCED then "Balanced"
  else if guid = GUID_POWER_SAVER then "Power Saver"
  else if guid = GUID_ULTIMATE_PERFORMANCE then "Ultimate Performance"
  else "Custom/Unknown"

/-- `scheme_key` (power_plan.rs lines 66-78). -/
def scheme_key (guid : Nat) : String :=
  if guid = GUID_HIGH_PERFORMANCE then "high_performance"
  else if guid = GUID_BALANCED then "balanced"
  else if guid = GUID_POWER_SAVER then "power_saver"
  else if guid = GUID_ULTIMATE_PERFORMANCE then "ultimate_performance"
  else "custom"

/-- `parse_expected` (power_plan.rs lines 81-89). -/
def parse_expected (expected : String) : List String :=
  match expected.toLower with
  | "high_performance" | "high" => ["high_performance", "ultimate_performance"]
  | "ultimate_performance" | "ultimate" => ["ultimate_performance"]
  | "balanced" => ["balanced"]
  | "power_saver" | "saver" => ["power_saver"]
  | _ => ["custom"]

/-- `power_plan::check` (power_plan.rs lines 92-131). -/
def check (env : Env) (config : CheckConfig) : CheckResult :=
  let expected := config.expected_value.getD "high_performance"
  match env.powerGetActiveScheme with
  | .error msg => CheckResult.mkError config.id config.name msg
  | .ok guid =>
    let current_key := scheme_key guid
    let current_name := scheme_name guid
    let acceptable := parse_expected expected
    if acceptable.contains current_key then
      CheckResult.pass config.id config.name current_name expected
    else
      CheckResult.fail config.id config.name current_name expected

/-- Power mode overlay GUIDs (power_plan.rs lines 161-164). -/
def GUID_POWER_MODE_BETTER_BATTERY : Nat := 0x961cc77725474f9d81747d86181b8a7a

def GUID_POWER_MODE_BALANCED : Nat := 0x00000000000000000000000000000000

def GUID_POWER_MODE_BETTER_PERFORMANCE : Nat := 0x3af9B8d97c97431dad7834a8bfea439f

def GUID_POWER_MODE_BEST_PERFORMANCE : Nat := 0xded574b545a04f42873746345c09c238

/-- `power_mode_name` (power_plan.rs lines 167-179). -/
def power_mode_name (guid : Nat) : String :=
  if guid = GUID_POWER_MODE_BEST_PERFORMANCE then "Best Performance"
  else if guid = GUID_POWER_MODE_BETTER_PERFORMANCE then "Better Performance"
  else if guid = GUID_POWER_MODE_BALANCED ∨ guid = 0 then "Balanced"
  else if guid = GUID_POWER_MODE_BETTER_BATTERY then "Better Battery"
  else "Unknown"

/-- `power_mode_key` (power_plan.rs lines 182-194). -/
def power_mode_key (guid : Nat) : String :=
  if guid = GUID_POWER_MODE_BEST_PERFORMANCE then "best_performance"
  else if guid = GUID_POWER_MODE_BETTER_PERFORMANCE then "better_performance"
  else if guid = GUID_POWER_MODE_BALANCED ∨ guid = 0 then "balanced"
  else if guid = GUID_POWER_MODE_BETTER_BATTERY then "better_battery"
  else "unknown"

/-- `parse_expected_mode` (power_plan.rs lines 197-205). -/
def parse_expected_mode (expected : String) : List String :=
  match expected.toLower with
  | "best_performance" | "best" | "max" => ["best_performance"]
  | "better_performance" | "better" | "high" => ["better_performance", "best_performance"]
  | "balanced" | "default" => ["balanced"]
  | "better_battery" | "battery" | "saver" => ["better_battery"]
  | _ => ["unknown"]

/-- `check_power_mode` (power_plan.rs lines 208-243). -/
def check_power_mode (env : Env) (config : CheckConfig) : CheckResult :=
  let expected := config.expected_value.getD "best_performance"
  if !env.overlayFuncsAvailable then
    CheckResult.mkError config.id config.name
      "Power mode API not available on this Windows version"
  else
    match env.powerGetOverlayScheme with
    | .error code =>
      CheckResult.mkError config.id config.name
        ("Failed to get power mode: error " ++ toString code)
    | .ok guid =>
      let current_key := power_mode_key guid
      let current_name := power_mode_name guid
      let acceptable := parse_expected_mode expected
      if acceptable.contains current_key then
        CheckResult.pass config.id config.name current_name expected
      else
        CheckResult.fail config.id config.name current_name expected

end power_plan

namespace registry

/-- `check_dword` (src/checkers/registry.rs lines 160-203). -/
def check_dword (env : Env) (config : CheckConfig) : CheckResult :=
  match config.registry_path with
  | none => CheckResult.mkError config.id config.name "Missing registry_path in config"
  | some path =>
    match config.registry_key with
    | none => CheckResult.mkError config.id config.name "Missing registry_key in config"
    | some key =>
      let expected := config.expected_value.getD "0"
      match parse_root_key path with
      | none =>
        CheckResult.mkError config.id config.name ("Invalid registry path: " ++ path)
      | some (root, subkey) =>
        match env.regReadDword root subkey key with
        | .ok value =>
          let current := toString value
          if current = expected then
            CheckResult.pass config.id config.name current expected
          else
            CheckResult.fail config.id config.name current expected
        | .error e => CheckResult.mkError config.id config.name e

/-- `check_string` (src/checkers/registry.rs lines 206-248). -/
def check_string (env : Env) (config : CheckConfig) : CheckResult :=
  match config.registry_path with
  | none => CheckResult.mkError config.id config.name "Missing registry_path in config"
  | some path =>
    match config.registry_key with
    | none => CheckResult.mkError config.id config.name "Missing registry_key in config"
    | some key =>
      let expected := config.expected_value.getD ""
      match parse_root_key path with
      | none =>
        CheckResult.mkError config.id config.name ("Invalid registry path: " ++ path)
      | some (root, subkey) =>
        match env.regReadString root subkey key with
        | .ok value =>
          if value = expected then
            CheckResult.pass config.id config.name value expected
          else
            CheckResult.fail config.id config.name value expected
        | .error e => CheckResult.mkError config.id config.name e

/-- `read_dword_value` (src/checkers/registry.rs lines 301-308). -/
def read_dword_value (env : Env) (path value_name : String) : Except String Nat :=
  match parse_root_key path with
  | none => .error ("Invalid registry path: " ++ path)
  | some (root, subkey) => env.regReadDword root subkey value_name

/-- `write_dword` (src/checkers/registry.rs lines 252-297). -/
def write_dword (env : Env) (path value_name : String) (data : Nat) : Except String Unit :=
  match parse_root_key path with
  | none => .error ("Invalid registry path: " ++ path)
  | some (root, subkey) => env.regWriteDword root subkey value_name data

/-- `write_string` (src/checkers/registry.rs lines 312-363). -/
def write_string (env : Env) (path value_name data : String) : Except String Unit :=
  match parse_root_key path with
  | none => .error ("Invalid registry path: " ++ path)
  | some (root, subkey) => env.regWriteString root subkey value_name data

end registry

namespace processes

/-- `is_process_running` (src/checkers/processes.rs lines 64-69). -/
def is_process_running (env : Env) (process_name : String) : Except String Bool :=
  match env.runningProcesses with
  | .error e => .error e
  | .ok procs =>
    let target := process_name.toLower
    .ok (procs.any (fun p => p.toLower = target))

/-- `check_absent` (src/checkers/processes.rs lines 72-104). -/
def check_absent (env : Env) (config : CheckConfig) : CheckResult :=
  match config.process_name with
  | none => CheckResult.mkError config.id config.name "Missing process_name in config"
  | some name =>
    match is_process_running env name with
    | .ok running =>
      if running then CheckResult.fail config.id config.name "Running" "Not Running"
      else CheckResult.pass config.id config.name "Not Running" "Not Running"
    | .error e => CheckResult.mkError config.id config.name e

/-- `check_present` (src/checkers/processes.rs lines 107-139). -/
def check_present (env : Env) (config : CheckConfig) : CheckResult :=
  match config.process_name with
  | none => CheckResult.mkError config.id config.name "Missing process_name in config"
  | some name =>
    match is_process_running env name with
    | .ok running =>
      if running then CheckResult.pass config.id config.name "Running" "Running"
      else CheckResult.fail config.id config.name "Not Running" "Running"
    | .error e => CheckResult.mkError config.id config.name e

/-- `terminate_process` (src/checkers/processes.rs lines 143-204). -/
def terminate_process (env : Env) (process_name : String) : Except String Nat :=
  env.terminateMatching process_name.toLower

end processes

namespace display

/-- `check_resolution` (src/checkers/display.rs lines 28-42). -/
def check_resolution (env : Env) (config : CheckConfig) : CheckResult :=
  let expected := config.expected_value.getD "1920x1080"
  match env.displaySettings with
  | .ok (width, height, _) =>
    let current := toString width ++ "x" ++ toString height
    if current = expected then CheckResult.pass config.id config.name current expected
    else CheckResult.fail config.id config.name current expected
  | .error e => CheckResult.mkError config.id config.name e

/-- `check_refresh_rate` (src/checkers/display.rs lines 45-61). -/
def check_refresh_rate (env : Env) (config : CheckConfig) : CheckResult :=
  let expected_str := config.expected_value.getD "60"
  let expected_hz := (parseU32 expected_str).getD 60
  match env.displaySettings with
  | .ok (_, _, hz) =>
    let current := toString hz ++ "Hz"
    let expected_display := toString expected_hz ++ "Hz+"
    if expected_hz ≤ hz then
      CheckResult.pass config.id config.name current expected_display
    else
      CheckResult.fail config.id config.name current expected_display
  | .error e => CheckResult.mkError config.id config.name e

/-- `check_hdr_registry` (src/checkers/display.rs lines 81-105). -/
def check_hdr_registry (env : Env) : Bool :=
  match registry.read_dword_value env
      "HKCU\\Software\\Microsoft\\Windows\\CurrentVersion\\VideoSettings"
      "GlobalHDRState" with
  | .ok value => value = 1
  | .error _ =>
    match registry.read_dword_value env
        "HKCU\\Software\\Microsoft\\Windows\\CurrentVersion\\VideoSettings"
        "EnableHDRForDisplay" with
    | .ok value => value = 1
    | .error _ => false

/-- `check_hdr` (src/checkers/display.rs lines 64-78). -/
def check_hdr (env : Env) (config : CheckConfig) : CheckResult :=
  let expected := config.expected_value.getD "1"
  let hdr_enabled := check_hdr_registry env
  let current := if hdr_enabled then "Enabled" else "Disabled"
  let expected_display := if expected = "1" then "Enabled" else "Disabled"
  if (expected = "1" && hdr_enabled) || (expected = "0" && !hdr_enabled) then
    CheckResult.pass config.id config.name current expected_display
  else
    CheckResult.fail config.id config.name current expected_display

end display

/-- `run_check` (src/checkers/mod.rs lines 70-82). -/
def run_check (env : Env) (config : CheckConfig) : CheckResult :=
  match config.check_type with
  | .PowerScheme => power_plan.check env config
  | .PowerMode => power_plan.check_power_mode env config
  | .RegistryDword => registry.check_dword env config
  | .RegistryString => registry.check_string env config
  | .ProcessAbsent => processes.check_absent env config
  | .ProcessPresent => processes.check_present env config
  | .DisplayResolution => display.check_resolution env config
  | .DisplayRefreshRate => display.check_refresh_rate env config
  | .HdrEnabled => display.check_hdr env config

/-- `run_all_checks` (src/checkers/mod.rs lines 85-91): filter to enabled
checks, evaluate each. -/
def run_all_checks (env : Env) (checks : List CheckConfig) : List CheckResult :=
  (checks.filter (fun c => c.enabled)).map (run_check env)

/-- Every evaluator copies the check's identifier and display name into its
result, whichever probe outcome the environment supplies. -/
theorem run_check_id (env : Env) (c : CheckConfig) :
    (run_check env c).id = c.id ∧ (run_check env c).name = c.name := by
  unfold run_check power_plan.check power_plan.check_power_mode registry.check_dword
    registry.check_string processes.check_absent processes.check_present
    processes.is_process_running display.check_resolution display.check_refresh_rate
    display.check_hdr
  repeat' split
  all_goals try dsimp only
  all_goals repeat' split
  all_goals exact ⟨rfl, rfl⟩

/-- C6: `run_all_checks` returns exactly one result per enabled check, in
declared order (the identifier sequences agree), returns nothing for
disabled checks (dropping them from the input changes nothing), and each
position's result is the independent evaluation of the corresponding
enabled check, so one probe failure cannot affect the others. -/
theorem run_all_checks_spec (env : Env) (checks : List CheckConfig) :
    ((run_all_checks env checks).map CheckResult.id
      = (checks.filter (fun c => c.enabled)).map CheckConfig.id)
  ∧ run_all_checks env checks = run_all_checks env (checks.filter (fun c => c.enabled))
  ∧ ∀ i : Nat, (run_all_checks env checks)[i]? =
      ((checks.filter (fun c => c.enabled))[i]?).map (run_check env) := by
  refine ⟨?_, ?_, ?_⟩
  · unfold run_all_checks
    rw [List.map_map]
    exact List.map_congr_left (fun c _ => (run_check_id env c).1)
  · unfold run_all_checks
    have h : (checks.filter (fun c => c.enabled)).filter (fun c => c.enabled)
        = checks.filter (fun c => c.enabled) := by
      rw [List.filter_filter]
      simp
    rw [h]
  · intro i
    unfold run_all_checks
    exact List.getElem?_map (run_check env) (checks.filter (fun c => c.enabled)) i

/-- The drift baseline `previous_status : HashMap<String, bool>` of
`AppStateInner` (src/app.rs line 23), modelled extensionally. -/
abbrev Baseline := String → Option Bool

/-- `HashMap::insert` on the baseline. -/
def updateBaseline (b : Baseline) (id : String) (v : Bool) : Baseline :=
  fun k => if k = id then some v else b k

/-- One iteration of the drift loop in `AppState::run_checks` (src/app.rs
lines 67-75): look the result's identifier up in the baseline (absent
defaults to previously passing), append the result to the drifted list on a
passing→failing transition, then unconditionally store the new pass/fail. -/
def driftStep (acc : Baseline × List CheckResult) (r : CheckResult) :
    Baseline × List CheckResult :=
  let was_passing := (acc.1 r.id).getD true
  (updateBaseline acc.1 r.id r.passed,
   if was_passing && !r.passed then acc.2 ++ [r] else acc.2)

/-- The whole drift loop of `AppState::run_checks` over one cycle's result
list: the updated baseline and the drifted results, in result order. -/
def driftCycle (b : Baseline) (results : List CheckResult) :
    Baseline × List CheckResult :=
  results.foldl driftStep (b, [])

/-- Folding the drift step from any accumulator only prepends that
accumulator to the drifted list. -/
theorem foldl_driftStep_acc (rs : List CheckResult) :
    ∀ (b : Baseline) (acc : List CheckResult),
      List.foldl driftStep (b, acc) rs = ((driftCycle b rs).1, acc ++ (driftCycle b rs).2) := by
  induction rs with
  | nil =>
    intro b acc
    simp [driftCycle]
  | cons r rs ih =>
    intro b acc
    have h1 : List.foldl driftStep (b, acc) (r :: rs)
        = List.foldl driftStep
            (updateBaseline b r.id r.passed,
             if (b r.id).getD true && !r.passed then acc ++ [r] else acc) rs := by
      show List.foldl driftStep (driftStep (b, acc) r) rs = _
      congr 1
    have h2 : driftCycle b (r :: rs)
        = List.foldl driftStep
            (updateBaseline b r.id r.passed,
             if (b r.id).getD true && !r.passed then [r] else []) rs := by
      show List.foldl driftStep (driftStep (b, []) r) rs = _
      congr 1
    rw [h1, ih, h2, ih]
    by_cases hc : ((b r.id).getD true && !r.passed) = true <;> simp [hc]

/-- Unfolding one result of the drift loop. -/
theorem driftCycle_cons (b : Baseline) (x : CheckResult) (rs : List CheckResult) :
    driftCycle b (x :: rs)
      = ((driftCycle (updateBaseline b x.id x.passed) rs).1,
         (if (b x.id).getD true && !x.passed then [x] else [])
           ++ (driftCycle (updateBaseline b x.id x.passed) rs).2) := by
  show List.foldl driftStep (driftStep (b, []) x) rs = _
  have : driftStep (b, []) x
      = (updateBaseline b x.id x.passed,
         if (b x.id).getD true && !x.passed then [x] else []) := rfl
  rw [this, foldl_driftStep_acc]

/-- The drifted list only holds results of the cycle. -/
theorem driftCycle_subset (rs : List CheckResult) :
    ∀ (b : Baseline) (r : CheckResult), r ∈ (driftCycle b rs).2 → r ∈ rs := by
  induction rs with
  | nil => intro b r h; simp [driftCycle] at h
  | cons x rs ih =>
    intro b r h
    rw [driftCycle_cons] at h
    rcases List.mem_append.mp h with h | h
    · by_cases hc : ((b x.id).getD true && !x.passed) = true
      · simp [hc] at h
        simp [h]
      · simp [hc] at h
    · exact List.mem_cons_of_mem _ (ih _ _ h)

/-- An identifier no result of the cycle carries keeps its baseline entry. -/
theorem driftCycle_stable (rs : List CheckResult) :
    ∀ (b : Baseline) (k : String), k ∉ rs.map CheckResult.id →
      (driftCycle b rs).1 k = b k := by
  induction rs with
  | nil => intro b k _; rfl
  | cons x rs ih =>
    intro b k hk
    rw [List.map_cons, List.mem_cons] at hk
    push_neg at hk
    rw [driftCycle_cons]
    show (driftCycle (updateBaseline b x.id x.passed) rs).1 k = b k
    rw [ih _ _ hk.2]
    simp [updateBaseline, hk.1]

/-- The drifted list depends on the baseline only at the cycle's own
identifiers. -/
theorem driftCycle_congr (rs : List CheckResult) :
    ∀ (b1 b2 : Baseline), (∀ r ∈ rs, b1 r.id = b2 r.id) →
      (driftCycle b1 rs).2 = (driftCycle b2 rs).2 := by
  induction rs with
  | nil => intro b1 b2 _; rfl
  | cons x rs ih =>
    intro b1 b2 hb
    rw [driftCycle_cons, driftCycle_cons]
    have hx : b1 x.id = b2 x.id := hb x (List.mem_cons_self x rs)
    rw [hx]
    dsimp only
    congr 1
    exact ih _ _ (fun r hr => by
      simp only [updateBaseline]
      by_cases hid : r.id = x.id
      · simp [hid]
      · simp [hid, hb r (List.mem_cons_of_mem _ hr)])

/-- Characterization of the drifted list: when identifiers are unique
within the cycle, a result is drifted exactly when the incoming baseline
(defaulting to passing) recorded it passing and it now failed. -/
theorem driftCycle_mem (rs : List CheckResult) :
    ∀ (b : Baseline), (rs.map CheckResult.id).Nodup →
      ∀ r ∈ rs, (r ∈ (driftCycle b rs).2 ↔ ((b r.id).getD true = true ∧ r.passed = false)) := by
  induction rs with
  | nil => intro b _ r hr; simp at hr
  | cons x rs ih =>
    intro b hnd r hr
    rw [List.map_cons, List.nodup_cons] at hnd
    obtain ⟨hxid, hnd'⟩ := hnd
    have hxrs : x ∉ rs := fun hmem => hxid (List.mem_map_of_mem CheckResult.id hmem)
    have htail : (driftCycle (updateBaseline b x.id x.passed) rs).2 = (driftCycle b rs).2 := by
      refine driftCycle_congr rs _ _ (fun r' hr' => ?_)
      have : r'.id ≠ x.id := fun he => hxid (he ▸ List.mem_map_of_mem CheckResult.id hr')
      simp [updateBaseline, this]
    rw [driftCycle_cons, htail]
    rcases List.mem_cons.mp hr with hrx | hrrs
    · subst hrx
      have hnot : r ∉ (driftCycle b rs).2 := fun h => hxrs (driftCycle_subset rs b r h)
      by_cases hc : ((b r.id).getD true && !r.passed) = true
      · simp only [hc, if_true]
        constructor
        · intro _
          have := Bool.and_eq_true_iff.mp hc
          exact ⟨this.1, by simpa using this.2⟩
        · intro _
          simp
      · simp only [hc, if_false]
        constructor
        · intro h
          exact absurd (by simpa using h) hnot
        · intro ⟨h1, h2⟩
          exact absurd (by simp [h1, h2]) hc
    · have hrnex : r ≠ x := fun he => hxrs (he ▸ hrrs)
      have hchar := ih b hnd' r hrrs
      constructor
      · intro h
        rcases List.mem_append.mp h with h | h
        · by_cases hc : ((b x.id).getD true && !x.passed) = true
          · simp [hc] at h
            exact absurd h hrnex
          · simp [hc] at h
        · exact hchar.mp h
      · intro hcond
        exact List.mem_append.mpr (Or.inr (hchar.mpr hcond))

/-- With unique identifiers, every result's baseline entry ends at its new
pass/fail value. -/
theorem driftCycle_baseline_set (rs : List CheckResult) :
    ∀ (b : Baseline), (rs.map CheckResult.id).Nodup →
      ∀ r ∈ rs, (driftCycle b rs).1 r.id = some r.passed := by
  induction rs with
  | nil => intro b _ r hr; simp at hr
  | cons x rs ih =>
    intro b hnd r hr
    rw [List.map_cons, List.nodup_cons] at hnd
    obtain ⟨hxid, hnd'⟩ := hnd
    rw [driftCycle_cons]
    rcases List.mem_cons.mp hr with hrx | hrrs
    · subst hrx
      show (driftCycle (updateBaseline b r.id r.passed) rs).1 r.id = some r.passed
      rw [driftCycle_stable rs _ _ hxid]
      simp [updateBaseline]
    · exact ih _ hnd' r hrrs

/-- From a baseline that records every identifier of the cycle as passing
(in particular the empty baseline), the drifted list is exactly the failing
results. -/
theorem driftCycle_all_passing (rs : List CheckResult) :
    ∀ (b : Baseline), (∀ r ∈ rs, (b r.id).getD true = true) →
      (rs.map CheckResult.id).Nodup →
      (driftCycle b rs).2 = rs.filter (fun r => !r.passed) := by
  induction rs with
  | nil => intro b _ _; rfl
  | cons x rs ih =>
    intro b hb hnd
    rw [List.map_cons, List.nodup_cons] at hnd
    obtain ⟨hxid, hnd'⟩ := hnd
    have htail : (driftCycle (updateBaseline b x.id x.passed) rs).2 = (driftCycle b rs).2 := by
      refine driftCycle_congr rs _ _ (fun r' hr' => ?_)
      have : r'.id ≠ x.id := fun he => hxid (he ▸ List.mem_map_of_mem CheckResult.id hr')
      simp [updateBaseline, this]
    rw [driftCycle_cons, htail, ih b (fun r hr => hb r (List.mem_cons_of_mem _ hr)) hnd']
    have hx : (b x.id).getD true = true := hb x (List.mem_cons_self x rs)
    rw [hx]
    by_cases hp : x.passed
    · simp [hp, List.filter_cons]
    · simp [hp, List.filter_cons]

/-- C1: in one evaluation cycle over a baseline and a result list (with
identifiers unique within the cycle, as they are within a scenario), a
result is drifted iff the incoming baseline recorded its identifier as
passing (absent defaulting to passing) and it now failed; every result's
baseline entry is then set to its new pass/fail; hence a check that fails
in two consecutive cycles is drifted at most in the first of them. -/
theorem drift_detection_spec (base : Baseline) (results : List CheckResult)
    (hnd : (results.map CheckResult.id).Nodup) :
    (∀ r ∈ results,
        (r ∈ (driftCycle base results).2
          ↔ ((base r.id).getD true = true ∧ r.passed = false))
      ∧ (driftCycle base results).1 r.id = some r.passed)
  ∧ (∀ results' : List CheckResult, (results'.map CheckResult.id).Nodup →
      ∀ r ∈ results, ∀ r' ∈ results', r'.id = r.id → r.passed = false → r'.passed = false →
        r' ∉ (driftCycle (driftCycle base results).1 results').2) := by
  refine ⟨fun r hr => ⟨driftCycle_mem results base hnd r hr,
    driftCycle_baseline_set results base hnd r hr⟩, ?_⟩
  intro results' hnd' r hr r' hr' hid hpf _ hmem
  have hlook := (driftCycle_mem results' ((driftCycle base results).1) hnd' r' hr').mp hmem
  have hset := driftCycle_baseline_set results base hnd r hr
  rw [hid, hset, hpf] at hlook
  simp at hlook

/-- Shared application state (`AppStateInner`, src/app.rs lines 18-25).
`config_path : PathBuf` and `last_check_time : Option<Instant>` are not
modelled: no claim concerns them and wall-clock instants have no shallow
embedding. -/
structure AppStateInner where
  config : Config
  last_results : List CheckResult
  previous_status : Baseline
  notify_on_drift : Bool

/-- What one `AppState::run_checks` call produces: the updated state, the
results and status it returns, and the drifted subset it hands to the
notification collaborator. -/
structure RunOutcome where
  state : AppStateInner
  results : List CheckResult
  status : OverallStatus
  drifted : List CheckResult

/-- `AppState::run_checks` (src/app.rs lines 54-88).  The notification side
effect is out of scope; the drifted list it would receive is returned. -/
def AppState.run_checks (env : Env) (st : AppStateInner) : RunOutcome :=
  let checks := ((assocGet st.config.root.scenarios st.config.active_scenario).map
    Scenario.checks).getD []
  let results := run_all_checks env checks
  let status := OverallStatus.from_results results
  let cycle := driftCycle st.previous_status results
  { state := { st with previous_status := cycle.1, last_results := results },
    results := results, status := status, drifted := cycle.2 }

/-- `AppState::set_active_scenario` (src/app.rs lines 201-227): validate the
identifier, switch, clear the drift baseline, recompute the cached
notify-on-drift flag. -/
def AppState.set_active_scenario (st : AppStateInner) (scenario_id : String) :
    Except String AppStateInner :=
  if assocContains st.config.root.scenarios scenario_id then
    .ok { st with
      config := { st.config with active_scenario := scenario_id },
      previous_status := fun _ => none,
      notify_on_drift := ((assocGet st.config.root.scenarios scenario_id).map
        Scenario.notify_on_drift).getD true }
  else
    .error ("Scenario '" ++ scenario_id ++ "' not found")

/-- C4: switching to a scenario identifier present in the configuration
succeeds, makes it active, empties the drift baseline and caches the new
scenario's notify-on-drift flag, so the next `run_checks` drift set is
computed from the default previously-passing baseline alone (it is exactly
the failing results); switching to an absent identifier errors. -/
theorem scenario_switch_spec (st : AppStateInner) (sid : String) :
    (assocContains st.config.root.scenarios sid = true →
      ∃ st' : AppStateInner, AppState.set_active_scenario st sid = .ok st'
        ∧ st'.config.active_scenario = sid
        ∧ (∀ k, st'.previous_status k = none)
        ∧ (∃ sc, assocGet st.config.root.scenarios sid = some sc
            ∧ st'.notify_on_drift = sc.notify_on_drift)
        ∧ (∀ env : Env,
            ((AppState.run_checks env st').results.map CheckResult.id).Nodup →
              (AppState.run_checks env st').drifted
                = (AppState.run_checks env st').results.filter (fun r => !r.passed)))
  ∧ (assocContains st.config.root.scenarios sid = false →
      ∃ e, AppState.set_active_scenario st sid = .error e) := by
  constructor
  · intro h
    obtain ⟨sc, hsc⟩ := Option.isSome_iff_exists.mp h
    refine ⟨_, by unfold AppState.set_active_scenario; rw [if_pos h], rfl,
      fun k => rfl, ⟨sc, hsc, by simp [hsc]⟩, fun env hnd => ?_⟩
    exact driftCycle_all_passing _ _ (fun r _ => rfl) hnd
  · intro h
    unfold AppState.set_active_scenario
    rw [if_neg (by simp [h])]
    exact ⟨_, rfl⟩

/-- Two prefixes of one character list compare: the shorter is a prefix of
the longer. -/
theorem leadsWith_of_common (p : List Char) :
    ∀ (q cs : List Char), p.length ≤ q.length →
      leadsWith p cs = true → leadsWith q cs = true → leadsWith p q = true := by
  induction p with
  | nil =>
    intro q cs _ _ _
    rfl
  | cons a as ih =>
    intro q cs hlen hp hq
    match q, cs with
    | [], _ => simp at hlen
    | b :: bs, [] => simp [leadsWith] at hp
    | b :: bs, c :: cst =>
      simp only [leadsWith, Bool.and_eq_true, decide_eq_true_eq] at hp hq ⊢
      obtain ⟨hac, hp2⟩ := hp
      obtain ⟨hbc, hq2⟩ := hq
      exact ⟨hac.trans hbc.symm, ih bs cst (by simpa using hlen) hp2 hq2⟩

/-- A path `parse_root_key` resolves to the user root is not classified as
requiring admin: the `HKCU` prefixes are incompatible with the `HKLM`
ones. -/
theorem parse_root_key_hkcu_not_admin (p s : String)
    (h : parse_root_key p = some (.HKCU, s)) : requires_admin p = false := by
  unfold requires_admin
  by_cases hc1 : leadsWith ("HKCU\\".toList) p.toList = true
  · have h1 : leadsWith ("HKLM\\".toList) p.toList = false := by
      by_contra hx
      rw [Bool.not_eq_false] at hx
      have := leadsWith_of_common ("HKCU\\".toList) ("HKLM\\".toList) p.toList
        (by decide) hc1 hx
      exact absurd this (by decide)
    have h2 : leadsWith ("HKEY_LOCAL_MACHINE\\".toList) p.toList = false := by
      by_contra hx
      rw [Bool.not_eq_false] at hx
      have := leadsWith_of_common ("HKCU\\".toList) ("HKEY_LOCAL_MACHINE\\".toList) p.toList
        (by decide) hc1 hx
      exact absurd this (by decide)
    rw [h1, h2]
    rfl
  · by_cases hc2 : leadsWith ("HKEY_CURRENT_USER\\".toList) p.toList = true
    · have h1 : leadsWith ("HKLM\\".toList) p.toList = false := by
        by_contra hx
        rw [Bool.not_eq_false] at hx
        have := leadsWith_of_common ("HKLM\\".toList) ("HKEY_CURRENT_USER\\".toList) p.toList
          (by decide) hx hc2
        exact absurd this (by decide)
      have h2 : leadsWith ("HKEY_LOCAL_MACHINE\\".toList) p.toList = false := by
        by_contra hx
        rw [Bool.not_eq_false] at hx
        have := leadsWith_of_common ("HKEY_CURRENT_USER\\".toList)
          ("HKEY_LOCAL_MACHINE\\".toList) p.toList (by decide) hc2 hx
        exact absurd this (by decide)
      rw [h1, h2]
      rfl
    · exfalso
      unfold parse_root_key stripLead at h
      rw [if_neg hc1, if_neg hc2] at h
      by_cases hc3 : leadsWith ("HKLM\\".toList) p.toList = true
      · rw [if_pos hc3] at h
        simp at h
      · rw [if_neg hc3] at h
        by_cases hc4 : leadsWith ("HKEY_LOCAL_MACHINE\\".toList) p.toList = true
        · rw [if_pos hc4] at h
          simp at h
        · rw [if_neg hc4] at h
          simp at h

/-- A path `parse_root_key` resolves to the machine root is classified as
requiring admin. -/
theorem parse_root_key_hklm_admin (p s : String)
    (h : parse_root_key p = some (.HKLM, s)) : requires_admin p = true := by
  unfold requires_admin
  unfold parse_root_key stripLead at h
  by_cases hc1 : leadsWith ("HKCU\\".toList) p.toList = true
  · rw [if_pos hc1] at h
    simp at h
  · rw [if_neg hc1] at h
    by_cases hc2 : leadsWith ("HKEY_CURRENT_USER\\".toList) p.toList = true
    · rw [if_pos hc2] at h
      simp at h
    · rw [if_neg hc2] at h
      by_cases hc3 : leadsWith ("HKLM\\".toList) p.toList = true
      · rw [hc3]
        rfl
      · rw [if_neg hc3] at h
        by_cases hc4 : leadsWith ("HKEY_LOCAL_MACHINE\\".toList) p.toList = true
        · rw [hc4]
          simp
        · rw [if_neg hc4] at h
          simp at h

/-- `FixResult` from src/fixer.rs. -/
structure FixResult where
  check_id : String
  check_name : String
  success : Bool
  message : String
deriving DecidableEq, Repr

/-- `FixCapability` from src/fixer.rs lines 21-28. -/
inductive FixCapability where
  | Direct
  | RequiresAdmin
  | Manual (reason : String)
deriving DecidableEq, Repr

/-- `get_fix_capability` (src/fixer.rs lines 39-70). -/
def get_fix_capability (config : CheckConfig) : FixCapability :=
  match config.check_type with
  | .PowerScheme => .Direct
  | .PowerMode => .Direct
  | .RegistryDword | .RegistryString =>
    match config.registry_path with
    | some path => if requires_admin path then .RequiresAdmin else .Direct
    | none => .Manual "No registry path configured"
  | .ProcessAbsent => .Direct
  | .ProcessPresent => .Manual "Cannot auto-start applications"
  | .DisplayResolution | .DisplayRefreshRate | .HdrEnabled =>
    .Manual "Display settings must be changed in Windows Settings"

/-- `set_power_scheme` (src/checkers/power_plan.rs lines 135-154). -/
def set_power_scheme (env : Env) (scheme_key : String) : Except String Unit :=
  let apply := fun (guid : Nat) =>
    let r := env.powerSetActiveScheme guid
    if r = 0 then Except.ok ()
    else Except.error ("Failed to set power scheme (error " ++ toString r ++ ")")
  match scheme_key.toLower with
  | "high_performance" | "high" => apply power_plan.GUID_HIGH_PERFORMANCE
  | "ultimate_performance" | "ultimate" => apply power_plan.GUID_ULTIMATE_PERFORMANCE
  | "balanced" => apply power_plan.GUID_BALANCED
  | "power_saver" | "saver" => apply power_plan.GUID_POWER_SAVER
  | _ => .error ("Unknown power scheme: " ++ scheme_key)

/-- `set_power_mode` (src/checkers/power_plan.rs lines 247-268). -/
def set_power_mode (env : Env) (mode_key : String) : Except String Unit :=
  if !env.overlayFuncsAvailable then
    .error "Power mode API not available on this Windows version"
  else
    let apply := fun (guid : Nat) =>
      let r := env.powerSetOverlayScheme guid
      if r = 0 then Except.ok ()
      else Except.error ("Failed to set power mode (error " ++ toString r ++ ")")
    match mode_key.toLower with
    | "best_performance" | "best" | "max" => apply power_plan.GUID_POWER_MODE_BEST_PERFORMANCE
    | "better_performance" | "better" | "high" =>
      apply power_plan.GUID_POWER_MODE_BETTER_PERFORMANCE
    | "balanced" | "default" => apply power_plan.GUID_POWER_MODE_BALANCED
    | "better_battery" | "battery" | "saver" => apply power_plan.GUID_POWER_MODE_BETTER_BATTERY
    | _ => .error ("Unknown power mode: " ++ mode_key)

/-- `fix_power_scheme` (src/fixer.rs lines 124-128). -/
def fix_power_scheme (env : Env) (config : CheckConfig) : Except String String :=
  let expected := config.expected_value.getD "high_performance"
  match set_power_scheme env expected with
  | .ok _ => .ok ("Set power plan to " ++ expected)
  | .error e => .error e

/-- `fix_power_mode` (src/fixer.rs lines 131-135). -/
def fix_power_mode (env : Env) (config : CheckConfig) : Except String String :=
  let expected := config.expected_value.getD "best_performance"
  match set_power_mode env expected with
  | .ok _ => .ok ("Set power mode to " ++ expected)
  | .error e => .error e

/-- `fix_registry_dword` (src/fixer.rs lines 138-154). -/
def fix_registry_dword (env : Env) (config : CheckConfig) : Except String String :=
  match config.registry_path with
  | none => .error "No registry path configured"
  | some path =>
    match config.registry_key with
    | none => .error "No registry key configured"
    | some key =>
      let expected_str := config.expected_value.getD "0"
      match parseU32 expected_str with
      | none => .error ("Invalid DWORD value: " ++ expected_str)
      | some expected =>
        match registry.write_dword env path key expected with
        | .ok _ => .ok ("Set " ++ key ++ " to " ++ toString expected)
        | .error e => .error e

/-- `fix_registry_string` (src/fixer.rs lines 157-170). -/
def fix_registry_string (env : Env) (config : CheckConfig) : Except String String :=
  match config.registry_path with
  | none => .error "No registry path configured"
  | some path =>
    match config.registry_key with
    | none => .error "No registry key configured"
    | some key =>
      let expected := config.expected_value.getD ""
      match registry.write_string env path key expected with
      | .ok _ => .ok ("Set " ++ key ++ " to '" ++ expected ++ "'")
      | .error e => .error e

/-- `fix_process_absent` (src/fixer.rs lines 173-185). -/
def fix_process_absent (env : Env) (config : CheckConfig) : Except String String :=
  match config.process_name with
  | none => .error "No process name configured"
  | some process_name =>
    match processes.terminate_process env process_name with
    | .ok count =>
      if count > 0 then
        .ok ("Terminated " ++ toString count ++ " instance(s) of " ++ process_name)
      else
        .ok (process_name ++ " is not running")
    | .error e => .error e

/-- `attempt_fix` (src/fixer.rs lines 94-121). -/
def attempt_fix (env : Env) (config : CheckConfig) : FixResult :=
  let result : Except String String :=
    match config.check_type with
    | .PowerScheme => fix_power_scheme env config
    | .PowerMode => fix_power_mode env config
    | .RegistryDword => fix_registry_dword env config
    | .RegistryString => fix_registry_string env config
    | .ProcessAbsent => fix_process_absent env config
    | .ProcessPresent => .error "Cannot auto-start applications"
    | .DisplayResolution | .DisplayRefreshRate | .HdrEnabled =>
      .error "Display settings cannot be auto-fixed"
  match result with
  | .ok msg =>
    { check_id := config.id, check_name := config.name, success := true, message := msg }
  | .error msg =>
    { check_id := config.id, check_name := config.name, success := false, message := msg }

/-- `fix_check` (src/fixer.rs lines 74-91). -/
def fix_check (env : Env) (config : CheckConfig) : FixResult :=
  match get_fix_capability config with
  | .Manual reason =>
    { check_id := config.id, check_name := config.name, success := false,
      message := "Cannot auto-fix: " ++ reason }
  | .RequiresAdmin => attempt_fix env config
  | .Direct => attempt_fix env config

/-- `fix_all` (src/fixer.rs lines 189-200), as the source's push loop. -/
def fix_all (env : Env) (configs : List CheckConfig) (failing_ids : List String) :
    List FixResult :=
  configs.foldl
    (fun results config =>
      if failing_ids.contains config.id && config.enabled then
        results ++ [fix_check env config]
      else results) []

/-- The `fix_all` loop is the filtered map. -/
theorem fix_all_eq_filter_map (env : Env) (failing_ids : List String)
    (configs : List CheckConfig) :
    ∀ acc : List FixResult,
      configs.foldl
        (fun results config =>
          if failing_ids.contains config.id && config.enabled then
            results ++ [fix_check env config]
          else results) acc
      = acc ++ (configs.filter
          (fun c => failing_ids.contains c.id && c.enabled)).map (fix_check env) := by
  induction configs with
  | nil =>
    intro acc
    simp
  | cons c cs ih =>
    intro acc
    by_cases hc : (failing_ids.contains c.id && c.enabled) = true
    · simp only [List.foldl_cons, hc, if_true, List.filter_cons, List.map_cons]
      rw [ih]
      simp
    · simp only [List.foldl_cons, hc, if_false, List.filter_cons]
      rw [ih]
      simp [hc]

/-- Every fix attempt reports the check's own identifier and name. -/
theorem fix_check_id (env : Env) (c : CheckConfig) :
    (fix_check env c).check_id = c.id ∧ (fix_check env c).check_name = c.name := by
  unfold fix_check get_fix_capability attempt_fix fix_power_scheme fix_power_mode
    fix_registry_dword fix_registry_string fix_process_absent
  repeat' split
  all_goals try dsimp only
  all_goals repeat' split
  all_goals exact ⟨rfl, rfl⟩

/-- C8: the fix-capability classifier is Direct for power-scheme, power-mode
and process-absent checks; for registry checks with a path under the user
root it is Direct and under the machine root RequiresAdmin; and it is
Manual with a non-empty kind-specific reason for process-present and all
display kinds. -/
theorem fix_capability_spec (c : CheckConfig) :
    ((c.check_type = .PowerScheme ∨ c.check_type = .PowerMode ∨ c.check_type = .ProcessAbsent) →
      get_fix_capability c = .Direct)
  ∧ ((c.check_type = .RegistryDword ∨ c.check_type = .RegistryString) →
      ∀ p : String, c.registry_path = some p →
        ((∃ s, parse_root_key p = some (.HKCU, s)) → get_fix_capability c = .Direct)
      ∧ ((∃ s, parse_root_key p = some (.HKLM, s)) → get_fix_capability c = .RequiresAdmin))
  ∧ (c.check_type = .ProcessPresent →
      ∃ reason, get_fix_capability c = .Manual reason ∧ reason ≠ "")
  ∧ ((c.check_type = .DisplayResolution ∨ c.check_type = .DisplayRefreshRate
        ∨ c.check_type = .HdrEnabled) →
      ∃ reason, get_fix_capability c = .Manual reason ∧ reason ≠ "") := by
  refine ⟨?_, ?_, ?_, ?_⟩
  · rintro (h | h | h) <;> simp [get_fix_capability, h]
  · rintro (h | h) p hp <;>
      exact ⟨fun ⟨s, hs⟩ => by
          simp [get_fix_capability, h, hp, parse_root_key_hkcu_not_admin p s hs],
        fun ⟨s, hs⟩ => by
          simp [get_fix_capability, h, hp, parse_root_key_hklm_admin p s hs]⟩
  · intro h
    exact ⟨"Cannot auto-start applications", by simp [get_fix_capability, h], by simp⟩
  · rintro (h | h | h) <;>
      exact ⟨"Display settings must be changed in Windows Settings",
        by simp [get_fix_capability, h], by simp⟩

/-- C9: `fix_all` makes exactly one attempt per enabled check whose
identifier is in the failing list, in configuration order (the identifier
sequences agree and each position is the independent `fix_check` of the
corresponding check, so one failure cannot block the rest); a Manual
capability short-circuits to an unsuccessful result carrying the reason. -/
theorem fix_all_spec (env : Env) (configs : List CheckConfig) (failing_ids : List String) :
    ((fix_all env configs failing_ids).map FixResult.check_id
      = (configs.filter (fun c => failing_ids.contains c.id && c.enabled)).map CheckConfig.id)
  ∧ (∀ i : Nat, (fix_all env configs failing_ids)[i]?
      = ((configs.filter (fun c => failing_ids.contains c.id && c.enabled))[i]?).map
          (fix_check env))
  ∧ (∀ c : CheckConfig, ∀ reason : String, get_fix_capability c = .Manual reason →
      fix_check env c = { check_id := c.id, check_name := c.name, success := false,
                          message := "Cannot auto-fix: " ++ reason }) := by
  have heq : fix_all env configs failing_ids
      = (configs.filter (fun c => failing_ids.contains c.id && c.enabled)).map
          (fix_check env) := by
    unfold fix_all
    rw [fix_all_eq_filter_map]
    rfl
  refine ⟨?_, ?_, ?_⟩
  · rw [heq, List.map_map]
    exact List.map_congr_left (fun c _ => (fix_check_id env c).1)
  · intro i
    rw [heq]
    exact List.getElem?_map (fix_check env) _ i
  · intro c reason h
    unfold fix_check
    rw [h]

/-- `migrate_v1_to_v2` (src/config.rs lines 280-297). -/
def migrate_v1_to_v2 (v1 : ConfigV1) : ConfigV2 :=
  { version := 2,
    default_scenario := "default",
    scenarios := [("default",
      { name := "Default",
        description := "Migrated from legacy config",
        poll_interval_seconds := v1.poll_interval_seconds,
        notify_on_drift := v1.notify_on_drift,
        checks := v1.checks })] }

/-- The part of `Config::load` after JSON parsing (src/config.rs lines
342-363): migrate a legacy root, activate the default scenario, fail when
that identifier does not resolve in the scenario mapping. -/
def Config.loadRoot (root : ConfigRoot) : Except String Config :=
  let config_v2 :=
    match root with
    | .V1 v1 => migrate_v1_to_v2 v1
    | .V2 v2 => v2
  let active_scenario := config_v2.default_scenario
  if !assocContains config_v2.scenarios active_scenario then
    .error ("Default scenario '" ++ active_scenario ++ "' not found in config")
  else
    .ok { root := config_v2, active_scenario := active_scenario }

/-- C7: migrating a legacy flat document yields a current-schema document
with exactly one scenario, named "Default", carrying the legacy poll
interval, notify flag and check list verbatim under the document's default
scenario identifier, so loading a legacy document never fails the
default-scenario validation. -/
theorem migrate_v1_spec (v1 : ConfigV1) :
    (migrate_v1_to_v2 v1).scenarios
      = [("default",
          { name := "Default",
            description := "Migrated from legacy config",
            poll_interval_seconds := v1.poll_interval_seconds,
            notify_on_drift := v1.notify_on_drift,
            checks := v1.checks })]
  ∧ (migrate_v1_to_v2 v1).scenarios.length = 1
  ∧ (migrate_v1_to_v2 v1).default_scenario = "default"
  ∧ Config.loadRoot (.V1 v1)
      = .ok { root := migrate_v1_to_v2 v1, active_scenario := "default" } :=
  ⟨rfl, rfl, rfl, rfl⟩

/-- A path of the file-system model: directory part and final component
(the part `Path::with_extension` rewrites).  A path holding a file has a
non-empty final component. -/
structure FsPath where
  dir : String
  file : String
deriving DecidableEq, Repr

/-- Rust `Path::set_extension` on a non-empty final component, at the
character level: drop the extension if there is one (the part after the
last `.`, which does not count when the name starts with its only `.`),
then append `.` and the new extension. -/
def withExtensionCs (cs newExt : List Char) : List Char :=
  match cs.reverse.dropWhile (fun c => c ≠ '.') with
  | [] => cs ++ '.' :: newExt
  | _ :: stemRev =>
    if stemRev = [] then cs ++ '.' :: newExt
    else stemRev.reverse ++ '.' :: newExt

/-- `Path::with_extension` on the final component. -/
def rustWithExtension (file ext : String) : String :=
  String.mk (withExtensionCs file.toList ext.toList)

/-- `path.with_extension("json.backup")` as `Config::save` computes the
backup location (src/config.rs line 389). -/
def backupPath (p : FsPath) : FsPath :=
  { p with file := rustWithExtension p.file "json.backup" }

/-- File contents in the model: raw pre-existing bytes, or a JSON document
serializing a v2 configuration root (what `save` writes). -/
inductive FileContent where
  | raw (s : String)
  | docV2 (root : ConfigV2)
deriving DecidableEq, Repr

/-- The file system as a flat map from paths to contents. -/
abbrev FS := FsPath → Option FileContent

def updateFS (fs : FS) (p : FsPath) (c : FileContent) : FS :=
  fun q => if q = p then some c else fs q

/-- Whether the fallible file-system calls of `Config::save` succeed on
this run. -/
structure SaveOracles where
  copyOk : Bool
  writeOk : Bool

/-- Result of a save: the final file system, under success or failure. -/
inductive SaveOutcome where
  | ok (fs : FS)
  | fail (msg : String) (fs : FS)

/-- `Config::save` (src/config.rs lines 380-406) over the file-system
model.  `create_dir_all` is not modelled (the map is flat); `fs::copy` and
`fs::write` may fail per the oracles, a failing call leaving the file
system unchanged.  The content written is the serialized v2 root with
`default_scenario` set to the active scenario. -/
def Config.save (cfg : Config) (path : FsPath) (fs : FS) (o : SaveOracles) : SaveOutcome :=
  let root : ConfigV2 := { cfg.root with default_scenario := cfg.active_scenario }
  let write := fun (fs1 : FS) =>
    if o.writeOk then SaveOutcome.ok (updateFS fs1 path (.docV2 root))
    else SaveOutcome.fail "Failed to write config file" fs1
  match fs path with
  | some content =>
    if o.copyOk then write (updateFS fs (backupPath path) content)
    else SaveOutcome.fail ("Failed to create backup at " ++ (backupPath path).file) fs
  | none => write fs

/-- Replacing the extension by `json.backup` always changes the final
component: the new suffix contains a `.`, which no extension can. -/
theorem withExtensionCs_ne (cs : List Char) :
    withExtensionCs cs ("json.backup".toList) ≠ cs := by
  unfold withExtensionCs
  cases hrest : cs.reverse.dropWhile (fun c => c ≠ '.') with
  | nil =>
    intro he
    dsimp only at he
    have := congrArg List.length he
    simp at this
  | cons d stemRev =>
    dsimp only
    by_cases hstem : stemRev = []
    · rw [if_pos hstem]
      intro he
      have := congrArg List.length he
      simp at this
    · rw [if_neg hstem]
      intro he
      have hsplit : cs = stemRev.reverse ++ [d] ++ (cs.reverse.takeWhile (fun c => c ≠ '.')).reverse := by
        have h1 : cs.reverse.takeWhile (fun c => c ≠ '.') ++ cs.reverse.dropWhile (fun c => c ≠ '.')
            = cs.reverse := List.takeWhile_append_dropWhile _ _
        rw [hrest] at h1
        have h2 := congrArg List.reverse h1
        simpa [List.reverse_append, List.append_assoc] using h2.symm
      rw [hsplit] at he
      rw [List.append_assoc] at he
      have he2 : ('.' : Char) :: "json.backup".toList
          = d :: (cs.reverse.takeWhile (fun c => c ≠ '.')).reverse :=
        List.append_cancel_left he
      injection he2 with hd hJ
      have hdot : ('.' : Char) ∈ cs.reverse.takeWhile (fun c => c ≠ '.') := by
        rw [← List.mem_reverse, ← hJ]
        decide
      have := List.mem_takeWhile_imp hdot
      simp at this

/-- The backup location never coincides with the saved path. -/
theorem backupPath_ne (p : FsPath) : backupPath p ≠ p := by
  intro he
  have hf : rustWithExtension p.file "json.backup" = p.file := congrArg FsPath.file he
  have hl : withExtensionCs p.file.toList ("json.backup".toList) = p.file.toList :=
    congrArg String.toList hf
  exact withExtensionCs_ne _ hl

/-- C3 (amended): when a file exists at the target path, `save` first
copies it to the sibling whose final component has its extension replaced
by `json.backup` (for the standard `.json` config path this is `.backup`
appended); a failed backup copy aborts the save with an error and leaves
the file system unchanged; on success the old content sits at the backup
path and the path holds the serialized current (v2) schema. -/
theorem config_save_spec (cfg : Config) (path : FsPath) (fs : FS) (o : SaveOracles)
    (content : FileContent) (hex : fs path = some content) :
    (o.copyOk = false →
      Config.save cfg path fs o
        = .fail ("Failed to create backup at " ++ (backupPath path).file) fs)
  ∧ (o.copyOk = true → o.writeOk = true →
      Config.save cfg path fs o
        = .ok (updateFS (updateFS fs (backupPath path) content) path
            (.docV2 { cfg.root with default_scenario := cfg.active_scenario }))
      ∧ (updateFS (updateFS fs (backupPath path) content) path
          (.docV2 { cfg.root with default_scenario := cfg.active_scenario }))
          (backupPath path) = some content
      ∧ (updateFS (updateFS fs (backupPath path) content) path
          (.docV2 { cfg.root with default_scenario := cfg.active_scenario }))
          path = some (.docV2 { cfg.root with default_scenario := cfg.active_scenario })) := by
  constructor
  · intro hc
    unfold Config.save
    rw [hex]
    simp [hc]
  · intro hc hw
    refine ⟨?_, ?_, ?_⟩
    · unfold Config.save
      rw [hex]
      simp [hc, hw]
    · simp [updateFS, backupPath_ne path]
    · simp [updateFS]

/-- Concrete path whose extension is not `json`, exhibiting the backup
location. -/
def cexPath : FsPath := { dir := "config", file := "checklist.toml" }

/-- A file system holding one file at `cexPath`. -/
def cexFS : FS := fun q => if q = cexPath then some (.raw "old contents") else none

/-- A minimal working configuration for exercising `save`. -/
def cexConfig : Config :=
  { root := { version := 2, default_scenario := "gaming", scenarios := [] },
    active_scenario := "gaming" }

/-- C3 counterexample: for the existing file `config/checklist.toml`, the
claim's backup location (`.backup` appended to the extension) would be
`checklist.toml.backup`, but `save` computes `with_extension("json.backup")`,
succeeds, writes the copy to `checklist.json.backup` and leaves nothing at
`checklist.toml.backup`. -/
theorem config_save_backup_cex :
    backupPath cexPath ≠ { dir := "config", file := "checklist.toml.backup" }
  ∧ ∃ fs' : FS,
      Config.save cexConfig cexPath cexFS { copyOk := true, writeOk := true } = .ok fs'
    ∧ fs' { dir := "config", file := "checklist.json.backup" } = some (.raw "old contents")
    ∧ fs' { dir := "config", file := "checklist.toml.backup" } = none := by
  refine ⟨by decide, _, rfl, by decide, by decide⟩

/-- Witness for the amended save contract at the concrete path: a failed
backup copy aborts with the file system unchanged, and a successful save
places the old content at the computed backup path. -/
theorem config_save_spec_witness :
    (Config.save cexConfig cexPath cexFS { copyOk := false, writeOk := true }
      = .fail ("Failed to create backup at " ++ (backupPath cexPath).file) cexFS)
  ∧ (updateFS (updateFS cexFS (backupPath cexPath) (.raw "old contents")) cexPath
      (.docV2 { cexConfig.root with default_scenario := cexConfig.active_scenario }))
      (backupPath cexPath) = some (.raw "old contents") := by
  refine ⟨?_, ?_⟩
  · exact (config_save_spec cexConfig cexPath cexFS
      { copyOk := false, writeOk := true } (.raw "old contents") rfl).1 rfl
  · exact ((config_save_spec cexConfig cexPath cexFS
      { copyOk := true, writeOk := true } (.raw "old contents") rfl).2 rfl rfl).2.1

/-- C10: the error-shaped result has `passed = false`, current value
`"ERROR"` and empty expected value; consequently a result list containing
one is never all-passed, and with a baseline recording its identifier as
passing (or absent) it lands in the drifted set like any failing result. -/
theorem error_result_spec (id name msg : String) :
    (CheckResult.mkError id name msg).passed = false
  ∧ (CheckResult.mkError id name msg).current_value = "ERROR"
  ∧ (CheckResult.mkError id name msg).expected_value = ""
  ∧ (∀ R : List CheckResult, CheckResult.mkError id name msg ∈ R →
      OverallStatus.from_results R ≠ .AllPassed)
  ∧ (∀ (b : Baseline) (R : List CheckResult), (R.map CheckResult.id).Nodup →
      CheckResult.mkError id name msg ∈ R → (b id).getD true = true →
      CheckResult.mkError id name msg ∈ (driftCycle b R).2) := by
  refine ⟨rfl, rfl, rfl, ?_, ?_⟩
  · intro R hmem hstat
    obtain ⟨r0, rest, hR⟩ := List.exists_cons_of_ne_nil (List.ne_nil_of_mem hmem)
    have hisEmpty : R.isEmpty = false := by simp [hR]
    unfold OverallStatus.from_results at hstat
    rw [hisEmpty] at hstat
    simp only [Bool.false_eq_true, if_false] at hstat
    by_cases h1 : (R.filter (fun r => r.passed)).length = R.length
    · have hall := (filter_length_eq_length_iff (fun r => r.passed) R).mp h1
      have := hall _ hmem
      simp [CheckResult.mkError] at this
    · rw [if_neg h1] at hstat
      by_cases h0 : (R.filter (fun r => r.passed)).length = 0
      · rw [if_pos h0] at hstat
        exact absurd hstat (by decide)
      · rw [if_neg h0] at hstat
        exact absurd hstat (by decide)
  · intro b R hnd hmem hb
    exact (driftCycle_mem R b hnd _ hmem).mpr ⟨hb, rfl⟩

/-- Witness for the error-result claim at a concrete probe failure. -/
theorem error_result_spec_witness :
    CheckResult.mkError "game_mode" "Game Mode Enabled" "Key not found"
      ∈ (driftCycle (fun _ => none)
          [CheckResult.mkError "game_mode" "Game Mode Enabled" "Key not found"]).2
  ∧ OverallStatus.from_results
      [CheckResult.mkError "game_mode" "Game Mode Enabled" "Key not found"] ≠ .AllPassed := by
  have h := error_result_spec "game_mode" "Game Mode Enabled" "Key not found"
  exact ⟨h.2.2.2.2 (fun _ => none) _ (by decide) (by decide) rfl,
    h.2.2.2.1 _ (by decide)⟩

/-- A failing result for exercising the drift detector. -/
def sampleFailingResult : CheckResult :=
  CheckResult.fail "power_plan" "Power Plan (High Performance)" "Balanced" "high_performance"

/-- Witness for the drift claim at a concrete two-cycle run: the first
failure from the empty baseline is drifted, the repeated failure in the
next cycle is not. -/
theorem drift_detection_spec_witness :
    sampleFailingResult ∈ (driftCycle (fun _ => none) [sampleFailingResult]).2
  ∧ sampleFailingResult
      ∉ (driftCycle (driftCycle (fun _ => none) [sampleFailingResult]).1
          [sampleFailingResult]).2 := by
  have h := drift_detection_spec (fun _ => none) [sampleFailingResult] (by decide)
  refine ⟨((h.1 sampleFailingResult (by decide)).1).mpr ⟨rfl, rfl⟩, ?_⟩
  exact h.2 [sampleFailingResult] (by decide) sampleFailingResult (by decide)
    sampleFailingResult (by decide) rfl rfl rfl

end BenchChecklist
